import Mathlib

/-!
Verification of the tobii_pro_wrapper calibration module
(src/tobii_calibration/tobii_calibration.py) against its natural-language
specification.  The Python code is shallowly embedded below: Python floats
are modelled as exact rationals, Python tuples of scalars as lists of
scalar values, fallible methods return an error code together with the
(unchanged) object state, and the SDK / GUI environment is passed in
explicitly (mocked device lists, mocked calibration statuses, mocked
operator selections).
-/

namespace TobiiCalibration

/-- Scalar Python values that can occur inside an argument tuple. -/
inductive PyLeaf where
  | lNone
  | lInt (n : ℤ)
  | lFloat (q : ℚ)
  | lStr (s : String)
  | lOther
deriving DecidableEq

/-- Python values passed as arguments to the wrapper methods.  Tuples are
modelled with scalar components, which covers every call shape the claims
mention.  pyInt and pyFloat are separate constructors because CPython
distinguishes them for identity comparisons even when the values are
numerically equal. -/
inductive PyObj where
  | pyNone
  | pyInt (n : ℤ)
  | pyFloat (q : ℚ)
  | pyStr (s : String)
  | pyTuple (xs : List PyLeaf)
  | pyWindow
  | pyOther
deriving DecidableEq

/-- isinstance(x, numbers.Number) for tuple components. -/
def PyLeaf.isNumber : PyLeaf → Bool
  | .lInt _ => true
  | .lFloat _ => true
  | _ => false

/-- Numeric value of a tuple component (junk 0 on non-numbers, which are
always rejected before the value is used). -/
def PyLeaf.toRat : PyLeaf → ℚ
  | .lInt n => (n : ℚ)
  | .lFloat q => q
  | _ => 0

/-- isinstance(x, numbers.Number). -/
def PyObj.isNumber : PyObj → Bool
  | .pyInt _ => true
  | .pyFloat _ => true
  | _ => false

/-- isinstance(x, str). -/
def PyObj.isStr : PyObj → Bool
  | .pyStr _ => true
  | _ => false

/-- isinstance(x, tuple). -/
def PyObj.isTuple : PyObj → Bool
  | .pyTuple _ => true
  | _ => false

/-- Numeric value of a Python number (junk 0 on non-numbers). -/
def PyObj.toRat : PyObj → ℚ
  | .pyInt n => (n : ℚ)
  | .pyFloat q => q
  | _ => 0

/-- The exception kinds raised by the module (messages omitted). -/
inductive PyError where
  | typeError
  | valueError
  | runtimeError
  | unboundLocalError
deriving DecidableEq

/-- Python int() applied to an exact rational: truncation toward zero. -/
def pyTrunc (q : ℚ) : ℤ := Int.tdiv q.num (q.den : ℤ)

/-- A connected eye tracker as reported by tobii_research.find_all_eyetrackers. -/
structure Tracker where
  address : String
  modelName : String
  deviceName : String
  serialNumber : String
deriving DecidableEq

/-- A psychopy monitors.Monitor object after setSizePix: its name and the
stored pixel dimensions. -/
structure MonitorCfg where
  name : String
  sizePix : ℚ × ℚ
deriving DecidableEq

/-- The fields a TobiiHelper object carries, from TobiiHelper.__init__.
The track-box geometry fetched from the SDK is not inspected by any claim
and is modelled as a unit marker. -/
structure TobiiHelper where
  eyetracker : Option Tracker
  tbCoordinates : Option Unit
  virtual_trackbox_width : Option ℚ
  virtual_trackbox_height : Option ℚ
  calibration : Option Unit
  tracking : Bool
  win : Option MonitorCfg
  monitorName : Option String
  gazeData : Option PyObj
  logging : Bool
  accuracyInPixel : ℚ
deriving DecidableEq

/-- TobiiHelper.__init__. -/
def initTobiiHelper : TobiiHelper :=
  { eyetracker := none
    tbCoordinates := none
    virtual_trackbox_width := none
    virtual_trackbox_height := none
    calibration := none
    tracking := false
    win := none
    monitorName := none
    gazeData := none
    logging := true
    accuracyInPixel := 50 }

/-- The device-discovery retry loop of TobiiHelper.setEyeTracker.  The mocked
SDK call tobii_research.find_all_eyetrackers is the function find, indexed by
how many calls have already been made; allTrackers holds the result of the
latest call and loopCount counts the calls made so far (the source starts it
at 1, after the initial call).  Mirrors:
while not allTrackers and loopCount < 50: allTrackers = find(); loopCount += 1.
Returns the final result list together with the total number of calls. -/
def findLoop (find : ℕ → List Tracker) (allTrackers : List Tracker)
    (loopCount : ℕ) : List Tracker × ℕ :=
  if h : allTrackers = [] ∧ loopCount < 50 then
    findLoop find (find loopCount) (loopCount + 1)
  else
    (allTrackers, loopCount)
termination_by 50 - loopCount
decreasing_by omega

/-- TobiiHelper.setEyeTracker over a mocked SDK: find gives the result of the
k-th call to find_all_eyetrackers.  Returns the raised error (if any), the
resulting object state, and the total number of find_all_eyetrackers calls.
The trailing private call __getTrackerSpace stores SDK track-box geometry; it
is modelled by setting the tbCoordinates marker. -/
def setEyeTracker (find : ℕ → List Tracker) (st : TobiiHelper)
    (serialString : PyObj) : Option PyError × TobiiHelper × ℕ :=
  if serialString ≠ PyObj.pyNone ∧ serialString.isStr = false then
    (some PyError.typeError, st, 0)
  else
    let fl := findLoop find (find 0) 1
    if fl.1.length < 1 then (some PyError.runtimeError, st, fl.2)
    else
      let eyetracker : Option Tracker :=
        match serialString with
        | PyObj.pyNone => fl.1.head?
        | PyObj.pyStr s =>
            -- the source assigns self.eyetracker on every matching element,
            -- so the last match wins; with no match the field keeps its
            -- previous value
            match (fl.1.filter (fun t => t.serialNumber = s)).getLast? with
            | some t => some t
            | none => st.eyetracker
        | _ => st.eyetracker
      match eyetracker with
      | none => (some PyError.runtimeError, st, fl.2)
      | some t =>
          (none, { st with eyetracker := some t, tbCoordinates := some () }, fl.2)

/-- TobiiHelper.setMonitor.  The GUI toolkit environment is passed in:
allMonitors is what psychopy monitors.getAllMonitors returns and screenDims
the pyglet default-screen size used when no dimensions are supplied.  The
result carries the raised error (if any), the object state, and the monitor
calibration that got saved by saveMon (none when nothing was saved). -/
def setMonitor (allMonitors : List String) (screenDims : ℚ × ℚ)
    (st : TobiiHelper) (nameString dimensions : PyObj) :
    Option PyError × TobiiHelper × Option (String × (ℚ × ℚ)) :=
  if allMonitors.length = 0 then (some PyError.runtimeError, st, none)
  else
    let dimsR : Except PyError (ℚ × ℚ) :=
      if dimensions = PyObj.pyNone then Except.ok screenDims
      else
        match dimensions with
        | PyObj.pyTuple [a, b] =>
            if a.isNumber = false ∨ b.isNumber = false then
              Except.error PyError.typeError
            else if a.toRat ≤ 0 ∨ b.toRat ≤ 0 then
              Except.error PyError.valueError
            else Except.ok (a.toRat, b.toRat)
        | PyObj.pyTuple _ => Except.error PyError.typeError
        | _ => Except.error PyError.typeError
    match dimsR with
    | Except.error e => (some e, st, none)
    | Except.ok dims =>
        match nameString with
        | PyObj.pyNone =>
            let nm := allMonitors.headD ""
            (none, { st with monitorName := some nm, win := some ⟨nm, dims⟩ },
             some (nm, dims))
        | PyObj.pyStr s =>
            (none, { st with monitorName := some s, win := some ⟨s, dims⟩ },
             some (s, dims))
        | _ => (some PyError.typeError, st, none)

/-- TobiiHelper.getMonitorName. -/
def getMonitorName (st : TobiiHelper) : Except PyError String :=
  match st.monitorName with
  | none => Except.error PyError.runtimeError
  | some nm => Except.ok nm

/-- TobiiHelper.getMonitorDimensions. -/
def getMonitorDimensions (st : TobiiHelper) : Except PyError (ℚ × ℚ) :=
  match st.win with
  | none => Except.error PyError.runtimeError
  | some mon => Except.ok (mon.sizePix.1, mon.sizePix.2)

/-- TobiiHelper.setAccuracy. -/
def setAccuracy (st : TobiiHelper) (accuracyInPixel : PyObj) :
    Option PyError × TobiiHelper :=
  if accuracyInPixel.isNumber = false then (some PyError.typeError, st)
  else if accuracyInPixel.toRat ≤ 0 ∨ accuracyInPixel.toRat ≥ 1000 then
    (some PyError.valueError, st)
  else (none, { st with accuracyInPixel := accuracyInPixel.toRat })

/-- TobiiHelper.__gazeDataCallback: store the delivered sample in the
gazeData slot. -/
def gazeDataCallback (st : TobiiHelper) (gd : PyObj) : TobiiHelper :=
  { st with gazeData := some gd }

/-- TobiiHelper.__ada2PsychoPix: map a normalized active-display-area
coordinate tuple to centered psychopy pixel coordinates. -/
def ada2PsychoPix (st : TobiiHelper) (xyCoor : PyObj) :
    Except PyError (ℤ × ℤ) :=
  match st.win with
  | none => Except.error PyError.runtimeError
  | some mon =>
      match xyCoor with
      | PyObj.pyTuple [a, b] =>
          if a.isNumber = false ∨ b.isNumber = false then
            Except.error PyError.typeError
          else if a.toRat > 1 ∨ a.toRat < 0 ∨ b.toRat > 1 ∨ b.toRat < 0 then
            Except.error PyError.valueError
          else
            let monW := mon.sizePix.1
            let monH := mon.sizePix.2
            let wShift := monW / 2
            let hShift := monH / 2
            Except.ok (pyTrunc (a.toRat * monW - wShift),
                       pyTrunc ((b.toRat * monH - hShift) * (-1)))
      | PyObj.pyTuple _ => Except.error PyError.valueError
      | _ => Except.error PyError.typeError

/-- TobiiHelper.__calcMeanOfPointList: sum the x and y components with the
for loop of the source and divide by the length.  The source raises
ValueError on an empty list; __smoothing only calls it on non-empty lists,
and on the empty list this total model returns the junk value (0, 0). -/
def calcMeanOfPointList (pointList : List (ℚ × ℚ)) : ℚ × ℚ :=
  let sums := pointList.foldl (fun acc p => (acc.1 + p.1, acc.2 + p.2))
    ((0 : ℚ), (0 : ℚ))
  (sums.1 / (pointList.length : ℚ), sums.2 / (pointList.length : ℚ))

/-- TobiiHelper.__smoothing.  The Python version mutates objectList in place
and returns the smoothed value; the model returns the pair of the smoothed
value and the updated list.  maxLength = 6 as in the source. -/
def smoothing {α : Type} [DecidableEq α] (currentObject : α)
    (objectList : List α) (invalidObject : α) (smoothFunction : List α → α) :
    α × List α :=
  let objectList1 :=
    if currentObject = invalidObject then
      if objectList.length > 0 then objectList.tail else objectList
    else objectList ++ [currentObject]
  let result :=
    if objectList1.length = 0 then invalidObject else smoothFunction objectList1
  let objectList2 :=
    if objectList1.length = 6 then objectList1.tail else objectList1
  (result, objectList2)

/-- The 5-point calibration dictionary built by runFullCalibration
(before the order is shuffled; shuffling permutes the entries but keeps the
key-to-point association). -/
def fiveCalibPoints : List (String × (ℚ × ℚ)) :=
  [("1", (1/10, 1/10)), ("2", (9/10, 1/10)), ("3", (1/2, 1/2)),
   ("4", (1/10, 9/10)), ("5", (9/10, 9/10))]

/-- The 9-point calibration dictionary built by runFullCalibration. -/
def nineCalibPoints : List (String × (ℚ × ℚ)) :=
  [("1", (1/10, 1/10)), ("2", (1/2, 1/10)), ("3", (9/10, 1/10)),
   ("4", (1/10, 1/2)), ("5", (1/2, 1/2)), ("6", (9/10, 1/2)),
   ("7", (1/10, 9/10)), ("8", (1/2, 9/10)), ("9", (9/10, 9/10))]

/-- The argument validation, precondition checks and calibration-point
construction of TobiiHelper.runFullCalibration, up to the np.random.shuffle
call (everything after that opens windows and draws).  The membership test
`numCalibPoints not in [5, 9]` uses Python value equality, while the
dispatch below it compares with the identity operator `is` against the int
literals 5 and 9: under CPython that is true exactly for the cached int
objects, modelled as the pyInt constructor, and false for every float.  A
number that is equal to 5 or 9 but not the int object (such as the float
5.0) therefore passes validation, assigns pointList in no branch, and makes
np.random.shuffle(pointList) raise UnboundLocalError. -/
def runFullCalibrationChecks (st : TobiiHelper)
    (numCalibPoints calibWin : PyObj) :
    Except PyError (List (String × (ℚ × ℚ))) :=
  if numCalibPoints ≠ PyObj.pyNone ∧ numCalibPoints.isNumber = false then
    Except.error PyError.typeError
  else if numCalibPoints ≠ PyObj.pyNone ∧
      ¬ (numCalibPoints.toRat = 5 ∨ numCalibPoints.toRat = 9) then
    Except.error PyError.valueError
  else if calibWin ≠ PyObj.pyNone ∧ calibWin ≠ PyObj.pyWindow then
    Except.error PyError.typeError
  else if st.eyetracker = none then Except.error PyError.runtimeError
  else if st.win = none then Except.error PyError.runtimeError
  else if numCalibPoints = PyObj.pyNone then Except.ok fiveCalibPoints
  else if numCalibPoints = PyObj.pyInt 5 then Except.ok fiveCalibPoints
  else if numCalibPoints = PyObj.pyInt 9 then Except.ok nineCalibPoints
  else Except.error PyError.unboundLocalError

/-- A TobiiHelper state with an eye tracker connected and a monitor set,
as required before runFullCalibration proceeds. -/
def readyState : TobiiHelper :=
  { initTobiiHelper with
    eyetracker := some ⟨"addr", "modelX", "deviceX", "serialX"⟩
    win := some ⟨"mon0", ((1920 : ℚ), (1080 : ℚ))⟩
    monitorName := some "mon0" }

/-! ## Calibration screen sequencer (C1)

The SDK calls issued by TobiiHelper.__drawCalibrationScreen together with
TobiiHelper.__getCalibrationData are modelled as an event trace over a
mocked SDK and operator: failures gives, for the k-th point visit overall,
how many collect_data calls return a non-success status before one returns
CALIBRATION_STATUS_SUCCESS; computeOk gives the status of the r-th
compute_and_apply call; the operator never aborts with the q key and
redoSelections lists, round by round, which points the operator selects for
redo on the results screen (rounds beyond the list select nothing). -/

/-- Status of an SDK calibration call. -/
inductive CalibStatus where
  | success
  | failure
deriving DecidableEq

/-- One SDK calibration call, with its argument point where the call takes
one. -/
inductive SdkEvent where
  | enterCalibrationMode
  | collectData (x y : ℚ) (status : CalibStatus)
  | computeAndApply (status : CalibStatus)
  | discardData (x y : ℚ)
  | leaveCalibrationMode
deriving DecidableEq

/-- A calibration point in normalized coordinates. -/
abbrev CalibPoint := ℚ × ℚ

/-- The collect_data retry loop of __getCalibrationData at one point:
while collecting_status != CALIBRATION_STATUS_SUCCESS: collect_data(x, y),
with the mock answering n failures before a success. -/
def collectDataLoop (p : CalibPoint) : ℕ → List SdkEvent
  | 0 => [SdkEvent.collectData p.1 p.2 CalibStatus.success]
  | n + 1 => SdkEvent.collectData p.1 p.2 CalibStatus.failure ::
      collectDataLoop p n

/-- The per-point for loop of __getCalibrationData: the k-th point visit
overall consumes the mock answer failures k. -/
def getCalibrationDataEvents (failures : ℕ → ℕ) : ℕ → List CalibPoint → List SdkEvent
  | _, [] => []
  | k, p :: ps =>
      collectDataLoop p (failures k) ++ getCalibrationDataEvents failures (k + 1) ps

/-- TobiiHelper.__getCalibrationData: collect data at every point of the
list, then call compute_and_apply once and hand its result back to the
caller. -/
def getCalibrationData (failures : ℕ → ℕ) (computeOk : ℕ → Bool) (k r : ℕ)
    (pointList : List CalibPoint) : List SdkEvent × CalibStatus :=
  let status := if computeOk r then CalibStatus.success else CalibStatus.failure
  (getCalibrationDataEvents failures k pointList ++
    [SdkEvent.computeAndApply status], status)

/-- The while loop of __drawCalibrationScreen: run __getCalibrationData on
the current point order; on a failed calibration leave calibration mode and
return; on success take the operator redo selection from the results
screen, leave calibration mode and stop when it is empty, and otherwise
discard the data of every selected point and run the next round on exactly
those points. -/
def calibrationLoop (failures : ℕ → ℕ) (computeOk : ℕ → Bool) :
    ℕ → ℕ → List CalibPoint → List (List CalibPoint) → List SdkEvent
  | k, r, pointOrder, sels =>
    let res := getCalibrationData failures computeOk k r pointOrder
    if res.2 = CalibStatus.success then
      match sels with
      | [] => res.1 ++ [SdkEvent.leaveCalibrationMode]
      | sel :: rest =>
          if sel = [] then res.1 ++ [SdkEvent.leaveCalibrationMode]
          else
            res.1 ++ sel.map (fun p => SdkEvent.discardData p.1 p.2) ++
              calibrationLoop failures computeOk (k + pointOrder.length) (r + 1)
                sel rest
    else res.1 ++ [SdkEvent.leaveCalibrationMode]

/-- TobiiHelper.__drawCalibrationScreen: enter calibration mode once, then
run the calibration loop starting from the full calibration dictionary. -/
def drawCalibrationScreenEvents (failures : ℕ → ℕ) (computeOk : ℕ → Bool)
    (calibDict : List CalibPoint) (sels : List (List CalibPoint)) :
    List SdkEvent :=
  SdkEvent.enterCalibrationMode :: calibrationLoop failures computeOk 0 0 calibDict sels

/-! The claim-side view of the same run: the trace decomposes into a list
of rounds, where each round consists of the collect calls for its points
(each repeated until success), one compute_and_apply, and then the discard
calls for exactly the redo selection of that round.  These definitions
follow the wording of claim C1, not the control flow of the source. -/

/-- One executed calibration round as the claim describes it: the points
collected in the round, whether its compute_and_apply succeeded, and the
points the operator then selected for redo (empty on the final and on the
failed round). -/
structure CalibRound where
  pts : List CalibPoint
  ok : Bool
  redo : List CalibPoint
deriving DecidableEq

/-- The rounds a run executes: rounds follow one another while the compute
succeeds and the operator keeps selecting redo points, each new round made
of exactly the previous selection. -/
def execRounds (computeOk : ℕ → Bool) :
    ℕ → List CalibPoint → List (List CalibPoint) → List CalibRound
  | r, pts, sels =>
    if computeOk r then
      match sels with
      | [] => [⟨pts, true, []⟩]
      | sel :: rest =>
          if sel = [] then [⟨pts, true, []⟩]
          else ⟨pts, true, sel⟩ :: execRounds computeOk (r + 1) sel rest
    else [⟨pts, false, []⟩]

/-- Claim wording: collect_data is repeated on a point until it returns
success. -/
def claimPointCollects (f : ℕ) (p : CalibPoint) : List SdkEvent :=
  List.replicate f (SdkEvent.collectData p.1 p.2 CalibStatus.failure) ++
    [SdkEvent.collectData p.1 p.2 CalibStatus.success]

/-- Claim wording: collect_data is called for each point of the round in
order. -/
def claimCollects (failures : ℕ → ℕ) (k : ℕ) (pts : List CalibPoint) :
    List SdkEvent :=
  ((pts.enumFrom k).map (fun ip => claimPointCollects (failures ip.1) ip.2)).flatten

/-- Claim wording for one round: all collects of the round come before its
single compute_and_apply, and the discards of the redo selection come after
it. -/
def claimRoundBlock (failures : ℕ → ℕ) (k : ℕ) (rd : CalibRound) :
    List SdkEvent :=
  claimCollects failures k rd.pts ++
    [SdkEvent.computeAndApply
      (if rd.ok then CalibStatus.success else CalibStatus.failure)] ++
    rd.redo.map (fun p => SdkEvent.discardData p.1 p.2)

/-- Claim wording: the rounds follow one another, the point-visit counter
advancing by the number of points of each round. -/
def claimBlocks (failures : ℕ → ℕ) : ℕ → List CalibRound → List SdkEvent
  | _, [] => []
  | k, rd :: rest =>
      claimRoundBlock failures k rd ++ claimBlocks failures (k + rd.pts.length) rest

/-! ## Theorems -/

theorem collectDataLoop_eq_claim (p : CalibPoint) (n : ℕ) :
    collectDataLoop p n = claimPointCollects n p := by
  induction n with
  | zero => simp [collectDataLoop, claimPointCollects]
  | succ m ih =>
      simp [collectDataLoop, claimPointCollects, List.replicate_succ, ih]

theorem getCalibrationDataEvents_eq_claim (failures : ℕ → ℕ) :
    ∀ (pts : List CalibPoint) (k : ℕ),
      getCalibrationDataEvents failures k pts = claimCollects failures k pts := by
  intro pts
  induction pts with
  | nil => intro k; simp [getCalibrationDataEvents, claimCollects]
  | cons p ps ih =>
      intro k
      simp [getCalibrationDataEvents, claimCollects, List.enumFrom, ih (k + 1),
        collectDataLoop_eq_claim]

theorem calibrationLoop_eq_claim (failures : ℕ → ℕ) (computeOk : ℕ → Bool) :
    ∀ (sels : List (List CalibPoint)) (k r : ℕ) (pts : List CalibPoint),
      calibrationLoop failures computeOk k r pts sels =
        claimBlocks failures k (execRounds computeOk r pts sels) ++
          [SdkEvent.leaveCalibrationMode] := by
  intro sels
  induction sels with
  | nil =>
      intro k r pts
      by_cases hc : computeOk r
      · simp [calibrationLoop, getCalibrationData, execRounds, claimBlocks,
          claimRoundBlock, hc, getCalibrationDataEvents_eq_claim]
      · simp [calibrationLoop, getCalibrationData, execRounds, claimBlocks,
          claimRoundBlock, hc, getCalibrationDataEvents_eq_claim]
  | cons sel rest ih =>
      intro k r pts
      by_cases hc : computeOk r
      · by_cases hs : sel = []
        · simp [calibrationLoop, getCalibrationData, execRounds, claimBlocks,
            claimRoundBlock, hc, hs, getCalibrationDataEvents_eq_claim]
        · simp [calibrationLoop, getCalibrationData, execRounds, claimBlocks,
            claimRoundBlock, hc, hs, getCalibrationDataEvents_eq_claim, ih]
      · simp [calibrationLoop, getCalibrationData, execRounds, claimBlocks,
          claimRoundBlock, hc, getCalibrationDataEvents_eq_claim]

theorem enter_not_mem_claimBlocks (failures : ℕ → ℕ) :
    ∀ (rds : List CalibRound) (k : ℕ),
      SdkEvent.enterCalibrationMode ∉ claimBlocks failures k rds := by
  intro rds
  induction rds with
  | nil => intro k; simp [claimBlocks]
  | cons rd rest ih =>
      intro k
      simp [claimBlocks, claimRoundBlock, claimCollects, claimPointCollects, ih]
      intro x i a b hmem hx
      subst hx
      simp

theorem leave_not_mem_claimBlocks (failures : ℕ → ℕ) :
    ∀ (rds : List CalibRound) (k : ℕ),
      SdkEvent.leaveCalibrationMode ∉ claimBlocks failures k rds := by
  intro rds
  induction rds with
  | nil => intro k; simp [claimBlocks]
  | cons rd rest ih =>
      intro k
      simp [claimBlocks, claimRoundBlock, claimCollects, claimPointCollects, ih]
      intro x i a b hmem hx
      subst hx
      simp

/-- C1: in one run of the calibration screen sequencer the SDK calls come in
the documented order.  The trace of __drawCalibrationScreen (with
__getCalibrationData) equals an enter_calibration_mode event, followed by
the blocks of the executed rounds, followed by one leave_calibration_mode
event; each round block consists of the collect_data calls of every point of
the round (each point repeated until collect_data returns
CALIBRATION_STATUS_SUCCESS), then the single compute_and_apply of the round,
then discard_data calls for exactly the points the operator selected for
redo in that round.  Moreover enter_calibration_mode occurs exactly once,
namely first, and leave_calibration_mode exactly once, namely last, whether
the final compute succeeded or not. -/
theorem calibration_sdk_call_order (failures : ℕ → ℕ) (computeOk : ℕ → Bool)
    (calibDict : List CalibPoint) (sels : List (List CalibPoint)) :
    drawCalibrationScreenEvents failures computeOk calibDict sels =
      SdkEvent.enterCalibrationMode ::
        (claimBlocks failures 0 (execRounds computeOk 0 calibDict sels) ++
          [SdkEvent.leaveCalibrationMode]) ∧
    (drawCalibrationScreenEvents failures computeOk calibDict sels).count
        SdkEvent.enterCalibrationMode = 1 ∧
    (drawCalibrationScreenEvents failures computeOk calibDict sels).count
        SdkEvent.leaveCalibrationMode = 1 ∧
    (drawCalibrationScreenEvents failures computeOk calibDict sels).getLast? =
      some SdkEvent.leaveCalibrationMode := by
  have htrace : drawCalibrationScreenEvents failures computeOk calibDict sels =
      SdkEvent.enterCalibrationMode ::
        (claimBlocks failures 0 (execRounds computeOk 0 calibDict sels) ++
          [SdkEvent.leaveCalibrationMode]) := by
    simp [drawCalibrationScreenEvents, calibrationLoop_eq_claim]
  refine ⟨htrace, ?_, ?_, ?_⟩
  · rw [htrace, List.count_cons, List.count_append,
      List.count_eq_zero_of_not_mem
        (enter_not_mem_claimBlocks failures (execRounds computeOk 0 calibDict sels) 0)]
    simp
  · rw [htrace, List.count_cons, List.count_append,
      List.count_eq_zero_of_not_mem
        (leave_not_mem_claimBlocks failures (execRounds computeOk 0 calibDict sels) 0)]
    simp
  · rw [htrace, ← List.cons_append, List.getLast?_concat]

theorem findLoop_calls_le (find : ℕ → List Tracker) :
    ∀ (n : ℕ) (a : List Tracker) (c : ℕ), 50 - c ≤ n → c ≤ 50 →
      (findLoop find a c).2 ≤ 50 := by
  intro n
  induction n with
  | zero =>
      intro a c h1 h2
      rw [findLoop]
      split
      · next h => exact absurd h.2 (by omega)
      · simpa using h2
  | succ m ih =>
      intro a c h1 h2
      rw [findLoop]
      split
      · next h => exact ih (find c) (c + 1) (by omega) (by omega)
      · simpa using h2

theorem findLoop_all_empty (find : ℕ → List Tracker) (hf : ∀ k, find k = []) :
    ∀ (n : ℕ) (c : ℕ), 50 - c ≤ n → c ≤ 50 → findLoop find [] c = ([], 50) := by
  intro n
  induction n with
  | zero =>
      intro c h1 h2
      rw [findLoop]
      split
      · next h => exact absurd h.2 (by omega)
      · next h =>
          have hc : c = 50 := by
            rcases Nat.lt_or_ge c 50 with hlt | hge
            · exact absurd ⟨rfl, hlt⟩ h
            · omega
          simp [hc]
  | succ m ih =>
      intro c h1 h2
      rw [findLoop]
      split
      · next h =>
          rw [hf c]
          exact ih (c + 1) (by omega) (by omega)
      · next h =>
          have hc : c = 50 := by
            rcases Nat.lt_or_ge c 50 with hlt | hge
            · exact absurd ⟨rfl, hlt⟩ h
            · omega
          simp [hc]

/-- C2: the device-discovery retry loop of setEyeTracker is bounded:
find_all_eyetrackers is called at most 50 times in total, and when the
discovery result is still empty the method raises RuntimeError at once,
with the state unchanged and no further call; in particular, when the mock
never reports a device, exactly 50 calls are made (one initial call plus 49
retries) and RuntimeError is raised. -/
theorem setEyeTracker_bounded_retry (find : ℕ → List Tracker)
    (st : TobiiHelper) (serial : PyObj) :
    (setEyeTracker find st serial).2.2 ≤ 50 ∧
    ((serial = PyObj.pyNone ∨ serial.isStr = true) →
      (findLoop find (find 0) 1).1 = [] →
      setEyeTracker find st serial =
        (some PyError.runtimeError, st, (findLoop find (find 0) 1).2)) ∧
    ((∀ k, find k = []) → (serial = PyObj.pyNone ∨ serial.isStr = true) →
      setEyeTracker find st serial = (some PyError.runtimeError, st, 50)) := by
  have hcalls : (findLoop find (find 0) 1).2 ≤ 50 :=
    findLoop_calls_le find 49 (find 0) 1 (by omega) (by omega)
  have hempty_case : (serial = PyObj.pyNone ∨ serial.isStr = true) →
      (findLoop find (find 0) 1).1 = [] →
      setEyeTracker find st serial =
        (some PyError.runtimeError, st, (findLoop find (find 0) 1).2) := by
    intro hs hempty
    have hnot : ¬ (serial ≠ PyObj.pyNone ∧ serial.isStr = false) := by
      rcases hs with h | h
      · simp [h]
      · simp [h]
    unfold setEyeTracker
    rw [if_neg hnot]
    simp [hempty]
  refine ⟨?_, hempty_case, ?_⟩
  · simp only [setEyeTracker]
    repeat' split
    all_goals simp_all
  · intro hf hs
    have hfl : findLoop find (find 0) 1 = ([], 50) := by
      rw [hf 0]
      exact findLoop_all_empty find hf 49 1 (by omega) (by omega)
    have hres := hempty_case hs (by rw [hfl])
    rw [hres, hfl]

/-- Witness for C2 at a mock SDK that never finds a device. -/
theorem setEyeTracker_bounded_retry_witness :
    setEyeTracker (fun _ => []) initTobiiHelper PyObj.pyNone =
      (some PyError.runtimeError, initTobiiHelper, 50) :=
  (setEyeTracker_bounded_retry (fun _ => []) initTobiiHelper PyObj.pyNone).2.2
    (fun _ => rfl) (Or.inl rfl)

/-- C3: with a monitor of pixel size (W, H) set, __ada2PsychoPix raises
TypeError on a non-tuple argument, ValueError on a tuple whose length is
not 2, TypeError on a 2-tuple with a non-numeric component, ValueError on
a 2-tuple of numbers with a component outside the interval from 0 to 1,
and on a 2-tuple of numbers (x, y) inside that interval it returns
(int(x * W - W / 2), int(-(y * H - H / 2))), mapping the upper-left ADA
origin to a center origin with the y axis flipped. -/
theorem ada2PsychoPix_spec (st : TobiiHelper) (mon : MonitorCfg)
    (h : st.win = some mon) :
    (∀ xy : PyObj, xy.isTuple = false →
      ada2PsychoPix st xy = Except.error PyError.typeError) ∧
    (∀ xs : List PyLeaf, xs.length ≠ 2 →
      ada2PsychoPix st (PyObj.pyTuple xs) = Except.error PyError.valueError) ∧
    (∀ a b : PyLeaf, (a.isNumber = false ∨ b.isNumber = false) →
      ada2PsychoPix st (PyObj.pyTuple [a, b]) = Except.error PyError.typeError) ∧
    (∀ a b : PyLeaf, a.isNumber = true → b.isNumber = true →
      (a.toRat > 1 ∨ a.toRat < 0 ∨ b.toRat > 1 ∨ b.toRat < 0) →
      ada2PsychoPix st (PyObj.pyTuple [a, b]) = Except.error PyError.valueError) ∧
    (∀ a b : PyLeaf, a.isNumber = true → b.isNumber = true →
      0 ≤ a.toRat → a.toRat ≤ 1 → 0 ≤ b.toRat → b.toRat ≤ 1 →
      ada2PsychoPix st (PyObj.pyTuple [a, b]) =
        Except.ok (pyTrunc (a.toRat * mon.sizePix.1 - mon.sizePix.1 / 2),
                   pyTrunc (-(b.toRat * mon.sizePix.2 - mon.sizePix.2 / 2)))) := by
  refine ⟨?_, ?_, ?_, ?_, ?_⟩
  · intro xy hxy
    rcases xy with _ | n | q | s | xs | _ | _ <;>
      simp_all [ada2PsychoPix, PyObj.isTuple, h]
  · intro xs hxs
    rcases xs with _ | ⟨a, xs⟩
    · simp [ada2PsychoPix, h]
    · rcases xs with _ | ⟨b, xs⟩
      · simp [ada2PsychoPix, h]
      · rcases xs with _ | ⟨c, xs⟩
        · simp at hxs
        · simp [ada2PsychoPix, h]
  · intro a b hab
    rcases hab with h1 | h1 <;> simp [ada2PsychoPix, h, h1]
  · intro a b ha hb hout
    simp only [ada2PsychoPix, h]
    rw [if_neg (by simp [ha, hb]), if_pos hout]
  · intro a b ha hb h0a h1a h0b h1b
    simp only [ada2PsychoPix, h]
    rw [if_neg (by simp [ha, hb]),
      if_neg (by push_neg; exact ⟨h1a, h0a, h1b, h0b⟩), mul_neg_one]

/-- Witness for C3 on a 1000 x 800 monitor: the center point maps to x = 0
and the quarter-height point to y = 200, an out-of-range tuple raises
ValueError, and a string raises TypeError. -/
theorem ada2PsychoPix_spec_witness :
    ada2PsychoPix { initTobiiHelper with win := some ⟨"m", ((1000 : ℚ), (800 : ℚ))⟩ }
      (PyObj.pyTuple [PyLeaf.lFloat (1/2), PyLeaf.lFloat (1/4)]) =
      Except.ok ((0 : ℤ), (200 : ℤ)) ∧
    ada2PsychoPix { initTobiiHelper with win := some ⟨"m", ((1000 : ℚ), (800 : ℚ))⟩ }
      (PyObj.pyTuple [PyLeaf.lFloat 2, PyLeaf.lFloat 0]) =
      Except.error PyError.valueError ∧
    ada2PsychoPix { initTobiiHelper with win := some ⟨"m", ((1000 : ℚ), (800 : ℚ))⟩ }
      (PyObj.pyStr "p") = Except.error PyError.typeError := by
  have h := ada2PsychoPix_spec
    { initTobiiHelper with win := some ⟨"m", ((1000 : ℚ), (800 : ℚ))⟩ }
    ⟨"m", ((1000 : ℚ), (800 : ℚ))⟩ rfl
  refine ⟨?_, ?_, ?_⟩
  · have e := h.2.2.2.2 (PyLeaf.lFloat (1/2)) (PyLeaf.lFloat (1/4)) rfl rfl
      (by norm_num [PyLeaf.toRat]) (by norm_num [PyLeaf.toRat])
      (by norm_num [PyLeaf.toRat]) (by norm_num [PyLeaf.toRat])
    rw [e]
    norm_num [PyLeaf.toRat, pyTrunc]
  · exact h.2.2.2.1 (PyLeaf.lFloat 2) (PyLeaf.lFloat 0) rfl rfl
      (Or.inl (by norm_num [PyLeaf.toRat]))
  · exact h.1 (PyObj.pyStr "p") rfl

/-- C4: __gazeDataCallback implements a latest-sample slot: each invocation
stores exactly the delivered sample in the gazeData field and changes no
other field, so after any non-empty sequence of invocations gazeData holds
the most recently delivered sample. -/
theorem gazeDataCallback_latest :
    (∀ (st : TobiiHelper) (s : PyObj),
      gazeDataCallback st s = { st with gazeData := some s }) ∧
    (∀ (st : TobiiHelper) (l : List PyObj), l ≠ [] →
      (l.foldl gazeDataCallback st).gazeData = l.getLast?) := by
  refine ⟨fun st s => rfl, ?_⟩
  intro st l
  induction l generalizing st with
  | nil => intro h; exact absurd rfl h
  | cons a t ih =>
      intro _
      rcases t with _ | ⟨b, t2⟩
      · simp [gazeDataCallback]
      · rw [List.foldl_cons, ih (gazeDataCallback st a) (by simp),
          List.getLast?_cons_cons]

/-- Witness for C4: after delivering two samples the slot holds the second. -/
theorem gazeDataCallback_latest_witness :
    (([PyObj.pyStr "a", PyObj.pyStr "b"]).foldl gazeDataCallback
      initTobiiHelper).gazeData = some (PyObj.pyStr "b") := by
  rw [gazeDataCallback_latest.2 initTobiiHelper
    [PyObj.pyStr "a", PyObj.pyStr "b"] (by simp)]
  rfl

/-- C5 counterexample: the claim says the returned value is invalidObject
exactly when the updated list is empty, but __smoothing can return the
invalid object for a non-empty updated list whenever the smoothing function
itself produces that value.  With currentObject 1, objectList containing
the single element -1, invalidObject 0 and the arithmetic-mean smoothing
function used by the source for scalar distances, the updated list is the
non-empty list with elements -1 and 1, yet the mean of that list is 0, the
invalid object. -/
theorem smoothing_exactly_when_counterexample :
    ¬ (((smoothing (1 : ℚ) [-1] 0 (fun l => l.sum / (l.length : ℚ))).1 = 0) ↔
        (([-1] : List ℚ) ++ [1] = [])) := by
  intro hiff
  have h1 : (smoothing (1 : ℚ) [-1] 0 (fun l => l.sum / (l.length : ℚ))).1 = 0 := by
    norm_num [smoothing]
  have h2 := hiff.mp h1
  simp at h2

/-- C5 (amended): if currentObject equals invalidObject the oldest element
of objectList is removed (the list stays empty when already empty), and
otherwise currentObject is appended; the returned value is invalidObject
when the updated list is empty and otherwise equals smoothFunction applied
to the updated list (a value that can itself coincide with invalidObject);
for point lists, __calcMeanOfPointList is the component-wise arithmetic
mean of a non-empty list of 2-tuples of numbers. -/
theorem smoothing_spec {α : Type} [DecidableEq α] (cur inv : α) (l : List α)
    (f : List α → α) :
    (cur = inv → l ≠ [] →
      (smoothing cur l inv f).1 = (if l.tail = [] then inv else f l.tail)) ∧
    (cur = inv → l = [] → smoothing cur l inv f = (inv, [])) ∧
    (cur ≠ inv → (smoothing cur l inv f).1 = f (l ++ [cur])) ∧
    (∀ pl : List (ℚ × ℚ), pl ≠ [] →
      calcMeanOfPointList pl =
        ((pl.map Prod.fst).sum / (pl.length : ℚ),
         (pl.map Prod.snd).sum / (pl.length : ℚ))) := by
  refine ⟨?_, ?_, ?_, ?_⟩
  · intro heq hne
    have hpos : l.length > 0 := List.length_pos.mpr hne
    simp [smoothing, heq, hpos]
    rcases l with _ | ⟨x, xs⟩
    · exact absurd rfl hne
    · simp [List.length_eq_zero]
  · intro heq hnil
    subst hnil
    simp [smoothing, heq]
  · intro hne
    simp [smoothing, hne]
  · intro pl _
    have hfold : ∀ (ql : List (ℚ × ℚ)) (a b : ℚ),
        ql.foldl (fun acc p => (acc.1 + p.1, acc.2 + p.2)) (a, b) =
          (a + (ql.map Prod.fst).sum, b + (ql.map Prod.snd).sum) := by
      intro ql
      induction ql with
      | nil => intro a b; simp
      | cons p t ih => intro a b; simp [ih, add_assoc]
    simp [calcMeanOfPointList, hfold]

/-- Witness for C5: appending a valid sample to a one-element list yields
the mean of the two, and the point mean is computed component-wise. -/
theorem smoothing_spec_witness :
    (smoothing (2 : ℚ) [4] 0 (fun l => l.sum / (l.length : ℚ))).1 = 3 ∧
    calcMeanOfPointList [((1 : ℚ), (3 : ℚ)), ((3 : ℚ), (5 : ℚ))] = (2, 4) := by
  have h := smoothing_spec (2 : ℚ) 0 [4] (fun l => l.sum / (l.length : ℚ))
  constructor
  · rw [h.2.2.1 (by norm_num)]
    norm_num
  · rw [h.2.2.2 [((1 : ℚ), (3 : ℚ)), ((3 : ℚ), (5 : ℚ))] (by simp)]
    norm_num

/-- C9: the smoothing aggregator list stays bounded: whenever __smoothing
is called on a list of at most 5 elements, the list again has at most 5
elements when it returns (an element is appended only for a valid sample
and the oldest element is popped whenever the length reaches the maximum 6),
so repeated calls starting from an empty list never leave more than 5
elements between calls. -/
theorem smoothing_bounded {α : Type} [DecidableEq α] (inv : α)
    (f : List α → α) :
    (∀ (cur : α) (l : List α), l.length ≤ 5 →
      (smoothing cur l inv f).2.length ≤ 5) ∧
    (∀ cs : List α,
      (cs.foldl (fun acc c => (smoothing c acc inv f).2) []).length ≤ 5) := by
  have key : ∀ (cur : α) (l : List α), l.length ≤ 5 →
      (smoothing cur l inv f).2.length ≤ 5 := by
    intro cur l hl
    have e1 : l.tail.length = l.length - 1 := List.length_tail l
    have e2 : l.tail.tail.length = l.tail.length - 1 := List.length_tail _
    have e3 : (l ++ [cur]).length = l.length + 1 := by simp
    have e4 : (l ++ [cur]).tail.length = (l ++ [cur]).length - 1 :=
      List.length_tail _
    have hsnd : (smoothing cur l inv f).2 =
        (if (if cur = inv then (if l.length > 0 then l.tail else l)
              else l ++ [cur]).length = 6
         then (if cur = inv then (if l.length > 0 then l.tail else l)
              else l ++ [cur]).tail
         else (if cur = inv then (if l.length > 0 then l.tail else l)
              else l ++ [cur])) := rfl
    rw [hsnd]
    split_ifs <;> omega
  refine ⟨key, ?_⟩
  intro cs
  have haux : ∀ (ds : List α) (acc : List α), acc.length ≤ 5 →
      (ds.foldl (fun a c => (smoothing c a inv f).2) acc).length ≤ 5 := by
    intro ds
    induction ds with
    | nil => intro acc h; simpa using h
    | cons c t ih => intro acc h; exact ih _ (key c acc h)
  exact haux cs [] (by simp)

/-- Witness for C9: a full 5-element list stays at 5 elements after a call
that appends a sixth sample and pops the oldest. -/
theorem smoothing_bounded_witness :
    (smoothing (6 : ℚ) [1, 2, 3, 4, 5] 0
      (fun l => l.sum / (l.length : ℚ))).2.length ≤ 5 :=
  (smoothing_bounded (0 : ℚ) (fun l => l.sum / (l.length : ℚ))).1 6
    [1, 2, 3, 4, 5] (by simp)

/-- C6: with at least one connected monitor, setMonitor rejects an
explicitly supplied dimensions argument that is not a tuple with TypeError,
a tuple whose length is not 2 or whose components are not numbers with
TypeError, and a 2-tuple of numbers with a component at most 0 with
ValueError; in each error case the state (in particular monitorName and
win) is unchanged and no monitor calibration is saved. -/
theorem setMonitor_dimension_errors (allMonitors : List String)
    (screenDims : ℚ × ℚ) (st : TobiiHelper) (nameString : PyObj)
    (hm : allMonitors ≠ []) :
    (∀ d : PyObj, d ≠ PyObj.pyNone → d.isTuple = false →
      setMonitor allMonitors screenDims st nameString d =
        (some PyError.typeError, st, none)) ∧
    (∀ xs : List PyLeaf, xs.length ≠ 2 →
      setMonitor allMonitors screenDims st nameString (PyObj.pyTuple xs) =
        (some PyError.typeError, st, none)) ∧
    (∀ a b : PyLeaf, (a.isNumber = false ∨ b.isNumber = false) →
      setMonitor allMonitors screenDims st nameString (PyObj.pyTuple [a, b]) =
        (some PyError.typeError, st, none)) ∧
    (∀ a b : PyLeaf, a.isNumber = true → b.isNumber = true →
      (a.toRat ≤ 0 ∨ b.toRat ≤ 0) →
      setMonitor allMonitors screenDims st nameString (PyObj.pyTuple [a, b]) =
        (some PyError.valueError, st, none)) := by
  have hm0 : ¬ allMonitors.length = 0 := by
    simpa [List.length_eq_zero] using hm
  refine ⟨?_, ?_, ?_, ?_⟩
  · intro d hdn hdt
    rcases d with _ | n | q | s | xs | _ | _ <;>
      simp_all [setMonitor, hm0, PyObj.isTuple]
  · intro xs hxs
    rcases xs with _ | ⟨a, xs⟩
    · simp [setMonitor, hm0]
    · rcases xs with _ | ⟨b, xs⟩
      · simp [setMonitor, hm0]
      · rcases xs with _ | ⟨c, xs⟩
        · simp at hxs
        · simp [setMonitor, hm0]
  · intro a b hab
    rcases hab with h1 | h1 <;> simp [setMonitor, hm0, h1]
  · intro a b ha hb hab
    rcases hab with h1 | h1 <;> simp [setMonitor, hm0, ha, hb, h1]

/-- Witness for C6 with one connected monitor named mon0. -/
theorem setMonitor_dimension_errors_witness :
    setMonitor ["mon0"] (800, 600) initTobiiHelper PyObj.pyNone
      (PyObj.pyStr "x") = (some PyError.typeError, initTobiiHelper, none) ∧
    setMonitor ["mon0"] (800, 600) initTobiiHelper PyObj.pyNone
      (PyObj.pyTuple [PyLeaf.lInt 800]) =
      (some PyError.typeError, initTobiiHelper, none) ∧
    setMonitor ["mon0"] (800, 600) initTobiiHelper PyObj.pyNone
      (PyObj.pyTuple [PyLeaf.lInt 800, PyLeaf.lStr "y"]) =
      (some PyError.typeError, initTobiiHelper, none) ∧
    setMonitor ["mon0"] (800, 600) initTobiiHelper PyObj.pyNone
      (PyObj.pyTuple [PyLeaf.lInt 0, PyLeaf.lInt 600]) =
      (some PyError.valueError, initTobiiHelper, none) := by
  have h := setMonitor_dimension_errors ["mon0"] (800, 600) initTobiiHelper
    PyObj.pyNone (by simp)
  exact ⟨h.1 _ (by simp) rfl, h.2.1 _ (by simp),
    h.2.2.1 _ _ (Or.inr rfl),
    h.2.2.2 _ _ rfl rfl (Or.inl (by norm_num [PyLeaf.toRat]))⟩

/-- C7: the monitor-not-set precondition aborts at once with RuntimeError:
getMonitorName raises when monitorName is not set, getMonitorDimensions and
runFullCalibration raise when win is not set (for runFullCalibration with
well-typed arguments, before anything else happens); with the monitor set,
getMonitorName returns the stored name and getMonitorDimensions the stored
pixel size, neither modifying any state. -/
theorem monitor_not_set_aborts :
    (∀ st : TobiiHelper, st.monitorName = none →
      getMonitorName st = Except.error PyError.runtimeError) ∧
    (∀ st : TobiiHelper, st.win = none →
      getMonitorDimensions st = Except.error PyError.runtimeError) ∧
    (∀ (st : TobiiHelper) (ncp w : PyObj),
      (ncp = PyObj.pyNone ∨ ncp = PyObj.pyInt 5 ∨ ncp = PyObj.pyInt 9) →
      (w = PyObj.pyNone ∨ w = PyObj.pyWindow) →
      st.win = none →
      runFullCalibrationChecks st ncp w = Except.error PyError.runtimeError) ∧
    (∀ (st : TobiiHelper) (nm : String), st.monitorName = some nm →
      getMonitorName st = Except.ok nm) ∧
    (∀ (st : TobiiHelper) (mon : MonitorCfg), st.win = some mon →
      getMonitorDimensions st = Except.ok (mon.sizePix.1, mon.sizePix.2)) := by
  refine ⟨?_, ?_, ?_, ?_, ?_⟩
  · intro st h
    simp [getMonitorName, h]
  · intro st h
    simp [getMonitorDimensions, h]
  · intro st ncp w hn hw hwin
    rcases hn with h | h | h <;> rcases hw with hw | hw <;>
      subst h <;> subst hw <;>
      by_cases he : st.eyetracker = none <;>
      simp [runFullCalibrationChecks, he, hwin, PyObj.isNumber, PyObj.toRat]
  · intro st nm h
    simp [getMonitorName, h]
  · intro st mon h
    simp [getMonitorDimensions, h]

/-- Witness for C7: the fresh state has no monitor, readyState has mon0. -/
theorem monitor_not_set_aborts_witness :
    getMonitorName initTobiiHelper = Except.error PyError.runtimeError ∧
    getMonitorDimensions initTobiiHelper = Except.error PyError.runtimeError ∧
    runFullCalibrationChecks initTobiiHelper PyObj.pyNone PyObj.pyNone =
      Except.error PyError.runtimeError ∧
    getMonitorName readyState = Except.ok "mon0" ∧
    getMonitorDimensions readyState = Except.ok (1920, 1080) := by
  have h := monitor_not_set_aborts
  refine ⟨h.1 _ rfl, h.2.1 _ rfl,
    h.2.2.1 _ _ _ (Or.inl rfl) (Or.inl rfl) rfl,
    h.2.2.2.1 _ _ rfl, ?_⟩
  have hd := h.2.2.2.2 readyState ⟨"mon0", (1920, 1080)⟩ rfl
  simpa using hd

/-- C8 (code bug): runFullCalibration validates numCalibPoints with value
equality (TypeError for non-numbers, ValueError for numbers not equal to 5
or 9, both before any window or SDK call), and for None, the int 5 and the
int 9 it builds the 5-point respectively 9-point dictionaries with keys 1
to 5 respectively 1 to 9 and pairwise distinct normalized points; but for
a number equal to 5 that is not the cached int object, such as the float
5.0, the 5-or-9 dispatch (written with the identity operator against int
literals) assigns pointList in no branch and the method crashes with
UnboundLocalError instead of building the dictionary. -/
theorem runFullCalibration_five_nine :
    runFullCalibrationChecks readyState (PyObj.pyFloat 5) PyObj.pyNone =
      Except.error PyError.unboundLocalError ∧
    runFullCalibrationChecks readyState PyObj.pyNone PyObj.pyNone =
      Except.ok fiveCalibPoints ∧
    runFullCalibrationChecks readyState (PyObj.pyInt 5) PyObj.pyNone =
      Except.ok fiveCalibPoints ∧
    runFullCalibrationChecks readyState (PyObj.pyInt 9) PyObj.pyNone =
      Except.ok nineCalibPoints ∧
    runFullCalibrationChecks readyState (PyObj.pyFloat 7) PyObj.pyNone =
      Except.error PyError.valueError ∧
    runFullCalibrationChecks readyState (PyObj.pyStr "5") PyObj.pyNone =
      Except.error PyError.typeError ∧
    fiveCalibPoints.map Prod.fst = ["1", "2", "3", "4", "5"] ∧
    nineCalibPoints.map Prod.fst = ["1", "2", "3", "4", "5", "6", "7", "8", "9"] ∧
    (fiveCalibPoints.map Prod.snd).Nodup ∧
    (nineCalibPoints.map Prod.snd).Nodup ∧
    (fiveCalibPoints.all fun kv =>
      decide (0 ≤ kv.2.1 ∧ kv.2.1 ≤ 1 ∧ 0 ≤ kv.2.2 ∧ kv.2.2 ≤ 1)) = true ∧
    (nineCalibPoints.all fun kv =>
      decide (0 ≤ kv.2.1 ∧ kv.2.1 ≤ 1 ∧ 0 ≤ kv.2.2 ∧ kv.2.2 ≤ 1)) = true := by
  refine ⟨?_, ?_, ?_, ?_, ?_, ?_, by norm_num [fiveCalibPoints],
    by norm_num [nineCalibPoints], by norm_num [fiveCalibPoints],
    by norm_num [nineCalibPoints], by norm_num [fiveCalibPoints],
    by norm_num [nineCalibPoints]⟩
  all_goals
    norm_num [runFullCalibrationChecks, readyState, initTobiiHelper,
      PyObj.toRat, PyObj.isNumber]
  all_goals simp

/-- C10: setAccuracy raises TypeError on a non-number, ValueError on a
number at most 0 or at least 1000 with the state unchanged, and on a number
strictly between 0 and 1000 it stores exactly that value in accuracyInPixel
and changes no other field. -/
theorem setAccuracy_spec (st : TobiiHelper) :
    (∀ v : PyObj, v.isNumber = false →
      setAccuracy st v = (some PyError.typeError, st)) ∧
    (∀ v : PyObj, v.isNumber = true → (v.toRat ≤ 0 ∨ v.toRat ≥ 1000) →
      setAccuracy st v = (some PyError.valueError, st)) ∧
    (∀ v : PyObj, v.isNumber = true → 0 < v.toRat → v.toRat < 1000 →
      setAccuracy st v = (none, { st with accuracyInPixel := v.toRat })) := by
  refine ⟨?_, ?_, ?_⟩
  · intro v hv
    simp [setAccuracy, hv]
  · intro v hv hout
    simp only [setAccuracy]
    rw [if_neg (by simp [hv]), if_pos hout]
  · intro v hv h0 h1
    simp only [setAccuracy]
    rw [if_neg (by simp [hv]), if_neg (by push_neg; exact ⟨h0, h1⟩)]

/-- Witness for C10: a string is rejected, 1000 is out of range, and 60 is
stored. -/
theorem setAccuracy_spec_witness :
    setAccuracy initTobiiHelper (PyObj.pyStr "a") =
      (some PyError.typeError, initTobiiHelper) ∧
    setAccuracy initTobiiHelper (PyObj.pyInt 1000) =
      (some PyError.valueError, initTobiiHelper) ∧
    setAccuracy initTobiiHelper (PyObj.pyInt 60) =
      (none, { initTobiiHelper with accuracyInPixel := 60 }) := by
  have h := setAccuracy_spec initTobiiHelper
  refine ⟨h.1 _ rfl, h.2.1 _ rfl (Or.inr (by norm_num [PyObj.toRat])), ?_⟩
  have hs := h.2.2 (PyObj.pyInt 60) rfl (by norm_num [PyObj.toRat])
    (by norm_num [PyObj.toRat])
  have e : (PyObj.pyInt 60).toRat = (60 : ℚ) := by norm_num [PyObj.toRat]
  rw [hs, e]

end TobiiCalibration
